import Mathlib

/-!
Shallow embedding of the ModShop cart page (src/src/app/cart/page.tsx):
the checkout gating logic, the nudge handlers and the checkout commit.

Modelling conventions:
* Prices are exact decimal numbers in the source (JS numbers holding
  currency amounts). They occur only under ring operations (+, ×, −) and
  comparisons, never division, so they are modelled as integers in the
  smallest currency unit, which represents every decimal price exactly.
* JS truthiness on optional strings/numbers/booleans is made explicit via
  `truthyStr` / `truthyNum` / `truthyBool`, and the `a || b` fallback idiom
  via `strOr` (an absent or empty string falls back, matching JS).
* React `useState` setters are modelled as functional updates of a
  `PageState` record; the record's default field values are the initial
  `useState` values of the component.
* The external Cart collaborator (`@/context/CartContext`) is not part of
  the repository sources; `removeItem` / `addItem` / `clearCart` are
  modelled from the spec (section 6): lines unique by slug, removal by
  slug, insertion merging into an existing line with the same slug.
* `localStorage` order persistence is modelled as the `orders` field; a
  failing `setItem` (e.g. quota) is modelled by the `persistOk` flag: when
  it is false the write throws, the statements after it never run, and the
  exception propagates (the `Except.error` carries the state reached so
  far).
* `Date.now()` / `toISOString()` are modelled by an opaque `now` string
  parameter.
* `nudgeService.triggerNudge` (the automatic decision engine) lives outside
  the repository sources; it is passed as an `evalNudge` function parameter.
* `nudgeService.recordNudgeInteraction` is fire-and-forget with no
  observable effect on the page state (spec section 4.2); its external
  storage is not modelled.
-/

/-- A cart line, as held by the external Cart collaborator (spec section 3). -/
structure CartLine where
  slug : String
  title : String
  price : Int
  quantity : Nat
  image : String
  category : String
deriving DecidableEq

/-- The four nudge variants of `NudgeType` in `@/services/NudgeService`. -/
inductive NudgeType where
  | gentle
  | alternative
  | block
  | none
deriving DecidableEq

/-- The loose variant-specific payload object carried by a `NudgeResponse`;
every field is optional, as in the TS object literal. -/
structure NudgeData where
  productTitle : Option String := Option.none
  currentProduct : Option String := Option.none
  currentPrice : Option Int := Option.none
  alternativeProduct : Option String := Option.none
  alternativePrice : Option Int := Option.none
  alternativeSlug : Option String := Option.none
  alternativeImage : Option String := Option.none
  alternativeCategory : Option String := Option.none
  isAlreadyCheapest : Option Bool := Option.none
  duration : Option Nat := Option.none
deriving DecidableEq

/-- A `NudgeResponse` value: a type tag plus an optional payload. -/
structure NudgeResponse where
  type : NudgeType
  data : Option NudgeData
deriving DecidableEq

/-- The notification toast kind (`'success' | 'warning'`). -/
inductive NotifType where
  | success
  | warning
deriving DecidableEq

/-- The notification message. The source builds strings; here each template
string is a constructor carrying its interpolated arguments (the saved
amount for the alternative-nudge messages). `empty` is the initial `""`.
In `switchedSaved` the amount is `currentPrice! - alternativePrice`; a
missing `currentPrice` makes the source compute NaN, modelled as `none`. -/
inductive NotifMessage where
  | empty
  | pleaseLogIn
  | orderPlaced
  | removedSaved (amount : Int) (title : String)
  | switchedSaved (product : String) (amount : Option Int)
deriving DecidableEq

/-- An order as written to `localStorage` by `processCheckout`. -/
structure Order where
  id : String
  items : List CartLine
  total : Int
  date : String
  userEmail : String
deriving DecidableEq

/-- The page state: the component's `useState` hooks plus the external
collaborators it reads and writes (cart items, authenticated user, and the
persisted order list). Defaults are the initial `useState` values. -/
structure PageState where
  items : List CartLine := []
  user : Option String := Option.none
  checkoutAnimating : Bool := false
  showNotification : Bool := false
  notificationType : NotifType := NotifType.success
  notificationMessage : NotifMessage := NotifMessage.empty
  currentNudge : Option NudgeResponse := Option.none
  canProceedWithCheckout : Bool := false
  orders : List Order := []
deriving DecidableEq

/-- JS truthiness of an optional string: present and nonempty. -/
def truthyStr (a : Option String) : Bool :=
  match a with
  | Option.some s => s != ""
  | Option.none => false

/-- JS truthiness of an optional number: present and nonzero. -/
def truthyNum (a : Option Int) : Bool :=
  match a with
  | Option.some q => q != 0
  | Option.none => false

/-- JS truthiness of an optional boolean: present and true. -/
def truthyBool (a : Option Bool) : Bool :=
  match a with
  | Option.some b => b
  | Option.none => false

/-- The JS fallback idiom `a || b` on an optional string: an absent or
empty string falls back to `b`. -/
def strOr (a : Option String) (b : String) : String :=
  match a with
  | Option.some s => if s = "" then b else s
  | Option.none => b

/-- Cart total, page.tsx line 30:
`items.reduce((sum, item) => sum + item.price * item.quantity, 0)`. -/
def total (items : List CartLine) : Int :=
  items.foldl (fun sum item => sum + item.price * (item.quantity : Int)) 0

/-- Modelled from the spec: the external Cart collaborator's
`removeItem(slug)` (`@/context/CartContext` is not among the sources).
Spec section 6: lines are unique by slug; removal drops the line with the
given slug. -/
def removeItem (slug : String) (items : List CartLine) : List CartLine :=
  items.filter (fun it => it.slug != slug)

/-- Modelled from the spec: the external Cart collaborator's
`addItem(line)` (`@/context/CartContext` is not among the sources).
Spec section 6: the cart "must guarantee line uniqueness by slug", so
adding a line whose slug is already present merges the quantity into the
existing line; otherwise the line is appended. -/
def addItem (line : CartLine) (items : List CartLine) : List CartLine :=
  if items.any (fun it => it.slug == line.slug) then
    items.map (fun it =>
      if it.slug == line.slug then
        { it with quantity := it.quantity + line.quantity }
      else it)
  else items ++ [line]

/-- `processCheckout`, page.tsx lines 70-93. Builds the order snapshot,
appends it to the persisted order list, clears the cart, shows the success
notification and resets the per-attempt flags. When the storage write
fails (`persistOk = false`, e.g. quota exceeded on `setItem`), the throw
happens before `clearCart()`: the statements after the write never run and
the exception propagates as `Except.error`, carrying the state reached so
far (only `checkoutAnimating` was set). -/
def processCheckout (persistOk : Bool) (now : String) (s : PageState) :
    Except PageState PageState :=
  let s1 := { s with checkoutAnimating := true }
  let order : Order :=
    { id := now, items := s1.items, total := total s1.items, date := now,
      userEmail := s1.user.getD "" }
  if persistOk then
    Except.ok { s1 with
      orders := s1.orders ++ [order],
      items := [],
      notificationType := NotifType.success,
      notificationMessage := NotifMessage.orderPlaced,
      showNotification := true,
      checkoutAnimating := false,
      canProceedWithCheckout := false,
      currentNudge := Option.none }
  else Except.error s1

/-- `handleCheckout`, page.tsx lines 47-63. The returned `Bool` records
whether `nudgeService.triggerNudge` was consulted during this call. -/
def handleCheckout (evalNudge : List CartLine → Int → NudgeResponse)
    (persistOk : Bool) (now : String) (s : PageState) :
    Except PageState PageState × Bool :=
  match s.user with
  | Option.none =>
    (Except.ok { s with
      notificationType := NotifType.warning,
      notificationMessage := NotifMessage.pleaseLogIn,
      showNotification := true }, false)
  | Option.some _ =>
    if !s.canProceedWithCheckout then
      let nudgeResponse := evalNudge s.items (total s.items)
      if nudgeResponse.type ≠ NudgeType.none then
        (Except.ok { s with currentNudge := Option.some nudgeResponse }, true)
      else
        (processCheckout persistOk now s, true)
    else
      (processCheckout persistOk now s, false)

/-- `handleNudgeAccept`, page.tsx lines 95-135. The source guards on
`nudgeType === 'alternative' && currentNudge?.data`; inside, the first
cart line is `items[0]`, and the two mutation branches are guarded by JS
truthiness of the payload fields. `now` models `Date.now()` in the slug
fallback. -/
def handleNudgeAccept (nudgeType : NudgeType) (now : String) (s : PageState) :
    PageState :=
  match nudgeType, s.currentNudge.bind (fun n => n.data) with
  | NudgeType.alternative, Option.some alternativeData =>
    match s.items.head? with
    | Option.some originalItem =>
      if truthyBool alternativeData.isAlreadyCheapest then
        let savedAmount := originalItem.price * (originalItem.quantity : Int)
        { s with
          items := removeItem originalItem.slug s.items,
          notificationType := NotifType.success,
          notificationMessage := NotifMessage.removedSaved savedAmount originalItem.title,
          showNotification := true,
          currentNudge := Option.none }
      else if truthyStr alternativeData.alternativeProduct &&
              truthyNum alternativeData.alternativePrice then
        let pname := alternativeData.alternativeProduct.getD ""
        let ap := alternativeData.alternativePrice.getD 0
        { s with
          items := addItem
            { slug := strOr alternativeData.alternativeSlug ("alternative-" ++ now),
              title := pname,
              price := ap,
              quantity := originalItem.quantity,
              image := strOr alternativeData.alternativeImage "/images/products/placeholder.jpg",
              category := strOr alternativeData.alternativeCategory
                (strOr (Option.some originalItem.category) "general") }
            (removeItem originalItem.slug s.items),
          notificationType := NotifType.success,
          notificationMessage := NotifMessage.switchedSaved pname
            (alternativeData.currentPrice.map (fun c => c - ap)),
          showNotification := true,
          currentNudge := Option.none }
      else { s with currentNudge := Option.none }
    | Option.none => { s with currentNudge := Option.none }
  | _, _ => { s with currentNudge := Option.none }

/-- `handleNudgeReject`, page.tsx lines 137-145: the nudge is dismissed;
for `gentle` and `block` the override flag is set and the commit runs. -/
def handleNudgeReject (nudgeType : NudgeType) (persistOk : Bool) (now : String)
    (s : PageState) : Except PageState PageState :=
  let s0 := { s with currentNudge := Option.none }
  if nudgeType = NudgeType.gentle ∨ nudgeType = NudgeType.block then
    processCheckout persistOk now { s0 with canProceedWithCheckout := true }
  else Except.ok s0

/-- `handleBlockComplete`, page.tsx lines 147-151: dismisses the block
nudge and sets the one-shot override flag. -/
def handleBlockComplete (s : PageState) : PageState :=
  { s with currentNudge := Option.none, canProceedWithCheckout := true }

/-- `triggerGentleNudge`, page.tsx lines 153-160:
`productTitle: items[0]?.title || 'this item'`. -/
def triggerGentleNudge (s : PageState) : PageState :=
  let payload : NudgeData :=
    { productTitle :=
        Option.some (strOr (s.items.head?.map (fun it => it.title)) "this item") }
  { s with currentNudge :=
      Option.some { type := NudgeType.gentle, data := Option.some payload } }

/-- The `AlternativeLookupResult` returned by
`nudgeService.getCheaperAlternative` (spec section 3). -/
structure AlternativeLookupResult where
  name : String
  price : Int
  slug : String
  image : String
  category : String
  isAlreadyCheapest : Bool
deriving DecidableEq

/-- `triggerAlternativeNudge`, page.tsx lines 162-179. The catalog lookup
`nudgeService.getCheaperAlternative` lives outside the sources and is
passed as a function parameter. -/
def triggerAlternativeNudge
    (getCheaperAlternative : CartLine → AlternativeLookupResult)
    (s : PageState) : PageState :=
  match s.items.head? with
  | Option.some first =>
    let alternative := getCheaperAlternative first
    let payload : NudgeData :=
      { currentProduct := Option.some first.title,
        currentPrice := Option.some first.price,
        alternativeProduct := Option.some alternative.name,
        alternativePrice := Option.some alternative.price,
        alternativeSlug := Option.some alternative.slug,
        alternativeImage := Option.some alternative.image,
        alternativeCategory := Option.some alternative.category,
        isAlreadyCheapest := Option.some alternative.isAlreadyCheapest }
    { s with currentNudge :=
        Option.some { type := NudgeType.alternative, data := Option.some payload } }
  | Option.none => s

/-- `triggerBlockNudge`, page.tsx lines 181-188: duration 15. -/
def triggerBlockNudge (s : PageState) : PageState :=
  let payload : NudgeData := { duration := Option.some 15 }
  { s with currentNudge :=
      Option.some { type := NudgeType.block, data := Option.some payload } }

/-- A sample cart line for concrete witnesses and counterexamples. -/
def mkLine (slug title : String) (price : Int) (qty : Nat) : CartLine :=
  { slug := slug, title := title, price := price, quantity := qty,
    image := "img", category := "cat" }

/-! Helper lemmas about the spec-modelled cart operations. -/

/-- Removing the head line's slug from a cart whose other lines all carry a
different slug removes exactly the head line. -/
theorem removeItem_cons_self (X : CartLine) (rest : List CartLine)
    (h : ∀ it ∈ rest, it.slug ≠ X.slug) :
    removeItem X.slug (X :: rest) = rest := by
  unfold removeItem
  rw [List.filter_cons_of_neg]
  · exact List.filter_eq_self.mpr fun it hit => by
      simpa [bne_iff_ne] using h it hit
  · simp

/-- Membership in a cart after `removeItem`. -/
theorem mem_removeItem {it : CartLine} {slug : String} {items : List CartLine}
    (h : it ∈ removeItem slug items) : it ∈ items ∧ it.slug ≠ slug := by
  unfold removeItem at h
  have h2 := List.mem_filter.mp h
  exact ⟨h2.1, by simpa [bne_iff_ne] using h2.2⟩

/-- Adding a line whose slug is fresh appends it. -/
theorem addItem_of_fresh (line : CartLine) (items : List CartLine)
    (h : ∀ it ∈ items, it.slug ≠ line.slug) :
    addItem line items = items ++ [line] := by
  unfold addItem
  rw [if_neg]
  intro hany
  rcases List.any_eq_true.mp hany with ⟨it, hit, heq⟩
  exact h it hit (by simpa using heq)

/-! Claim theorems. -/

/-- Claim C7: when no authenticated identity is present, a checkout request
yields the user-facing warning notification, no order is persisted, no
nudge evaluation occurs (the returned flag is `false`), and the cart, the
override flag and the current nudge are unchanged (only the notification
fields change in the resulting state). -/
theorem C7_identity_missing_aborts
    (evalNudge : List CartLine → Int → NudgeResponse) (persistOk : Bool)
    (now : String) (s : PageState) (h : s.user = Option.none) :
    handleCheckout evalNudge persistOk now s =
      (Except.ok { s with
         notificationType := NotifType.warning,
         notificationMessage := NotifMessage.pleaseLogIn,
         showNotification := true }, false) := by
  simp [handleCheckout, h]

/-- Witness for C7 at a concrete cart with no user. -/
theorem C7_identity_missing_aborts_witness :
    handleCheckout (fun _ _ => { type := NudgeType.block, data := Option.none })
      true "t0" { items := [mkLine "a" "A" 10 2] } =
    (Except.ok { items := [mkLine "a" "A" 10 2],
                 notificationType := NotifType.warning,
                 notificationMessage := NotifMessage.pleaseLogIn,
                 showNotification := true }, false) :=
  C7_identity_missing_aborts _ true "t0" _ rfl

/-- Claim C3: once `canProceedWithCheckout` is true and a user is present,
a checkout request never consults the nudge evaluator (the returned flag
is `false`) and goes straight to the commit, for every cart contents,
every evaluator and every persistence outcome. -/
theorem C3_override_skips_nudge_evaluation
    (evalNudge : List CartLine → Int → NudgeResponse) (persistOk : Bool)
    (now : String) (s : PageState) (u : String)
    (hu : s.user = Option.some u) (hc : s.canProceedWithCheckout = true) :
    handleCheckout evalNudge persistOk now s =
      (processCheckout persistOk now s, false) := by
  simp [handleCheckout, hu, hc]

/-- Witness for C3 at a concrete state with the override flag set. -/
theorem C3_override_skips_nudge_evaluation_witness :
    handleCheckout (fun _ _ => { type := NudgeType.block, data := Option.none })
      true "t0"
      { items := [mkLine "a" "A" 10 2], user := Option.some "u",
        canProceedWithCheckout := true } =
    (processCheckout true "t0"
      { items := [mkLine "a" "A" 10 2], user := Option.some "u",
        canProceedWithCheckout := true }, false) :=
  C3_override_skips_nudge_evaluation _ true "t0" _ "u" rfl rfl

/-- Claim C2 (amended): the commit is atomic — on a successful write the
order is appended and the cart cleared together, and on a failing write
neither happens (the error state keeps the cart and order list intact) —
but no user-visible error is surfaced on failure: the state reached when
the write throws differs from the initial state only in
`checkoutAnimating`, so the notification fields are untouched and the
exception propagates unhandled. -/
theorem C2_commit_atomic_failure_unnotified (s : PageState) (now : String) :
    processCheckout true now s =
      Except.ok { s with
        orders := s.orders ++
          [{ id := now, items := s.items, total := total s.items,
             date := now, userEmail := s.user.getD "" }],
        items := [],
        notificationType := NotifType.success,
        notificationMessage := NotifMessage.orderPlaced,
        showNotification := true,
        checkoutAnimating := false,
        canProceedWithCheckout := false,
        currentNudge := Option.none } ∧
    processCheckout false now s =
      Except.error { s with checkoutAnimating := true } :=
  ⟨rfl, rfl⟩

/-- Counterexample for C2 as stated: on a failing order write with a
non-empty cart, the cart is not cleared (as the claim requires) but no
user-visible error is surfaced — the propagated state still has
`showNotification = false` and the initial empty notification message. -/
theorem C2_counterexample :
    processCheckout false "t0" { items := [mkLine "a" "A" 10 2], user := Option.some "u" } =
      Except.error { items := [mkLine "a" "A" 10 2], user := Option.some "u",
                     checkoutAnimating := true } ∧
    ({ items := [mkLine "a" "A" 10 2], user := Option.some "u",
       checkoutAnimating := true } : PageState).showNotification = false ∧
    ({ items := [mkLine "a" "A" 10 2], user := Option.some "u",
       checkoutAnimating := true } : PageState).notificationMessage = NotifMessage.empty :=
  ⟨rfl, rfl, rfl⟩

/-- Claim C6: rejecting a `gentle` or `block` nudge dismisses the nudge,
sets the one-shot override flag and runs the checkout commit (under a
successful write this appends the order and clears the cart); rejecting an
`alternative` nudge only dismisses the nudge — no flag, no commit. -/
theorem C6_reject_gentle_block_commits (s : PageState) (persistOk : Bool)
    (now : String) :
    handleNudgeReject NudgeType.gentle persistOk now s =
      processCheckout persistOk now
        { s with currentNudge := Option.none, canProceedWithCheckout := true } ∧
    handleNudgeReject NudgeType.block persistOk now s =
      processCheckout persistOk now
        { s with currentNudge := Option.none, canProceedWithCheckout := true } ∧
    handleNudgeReject NudgeType.alternative persistOk now s =
      Except.ok { s with currentNudge := Option.none } ∧
    handleNudgeReject NudgeType.gentle true now s =
      Except.ok { s with
        orders := s.orders ++
          [{ id := now, items := s.items, total := total s.items,
             date := now, userEmail := s.user.getD "" }],
        items := [],
        notificationType := NotifType.success,
        notificationMessage := NotifMessage.orderPlaced,
        showNotification := true,
        checkoutAnimating := false,
        canProceedWithCheckout := false,
        currentNudge := Option.none } :=
  ⟨rfl, rfl, rfl, rfl⟩

/-- A concrete state with a logged-in user, a non-empty cart and an open
block nudge (duration 15), for settling C1. -/
def exC1 : PageState :=
  { items := [mkLine "a" "A" 10 2], user := Option.some "u",
    currentNudge := Option.some
      { type := NudgeType.block,
        data := Option.some { duration := Option.some 15 } } }

/-- Counterexample for C1 as stated: firing the block nudge's completion
callback on a state with a logged-in user and a non-empty cart sets the
override flag and dismisses the nudge but changes nothing else — in
particular no order is persisted and the cart is not cleared, so the
checkout did not proceed and a further user action is required. -/
theorem C1_counterexample :
    handleBlockComplete exC1 =
      { exC1 with currentNudge := Option.none, canProceedWithCheckout := true } ∧
    (handleBlockComplete exC1).orders = [] ∧
    (handleBlockComplete exC1).items = [mkLine "a" "A" 10 2] := by
  refine ⟨rfl, rfl, rfl⟩

/-- Claim C1 (amended): the block nudge's completion callback sets
`canProceedWithCheckout` to true and dismisses the nudge, and changes
nothing else — it does not itself commit. A subsequent checkout request
(a further user action) then skips nudge evaluation (flag `false`) and
goes straight to the commit. -/
theorem C1_block_complete_bypasses_on_next_request (s : PageState) :
    handleBlockComplete s =
      { s with currentNudge := Option.none, canProceedWithCheckout := true } ∧
    ∀ (evalNudge : List CartLine → Int → NudgeResponse) (persistOk : Bool)
      (now : String) (u : String), s.user = Option.some u →
      handleCheckout evalNudge persistOk now (handleBlockComplete s) =
        (processCheckout persistOk now
          { s with currentNudge := Option.none, canProceedWithCheckout := true },
         false) := by
  refine ⟨rfl, ?_⟩
  intro evalNudge persistOk now u hu
  simp [handleCheckout, handleBlockComplete, hu]

/-- Witness for C1's amended theorem at the concrete state `exC1`. -/
theorem C1_block_complete_bypasses_on_next_request_witness :
    handleBlockComplete exC1 =
      { exC1 with currentNudge := Option.none, canProceedWithCheckout := true } ∧
    handleCheckout (fun _ _ => { type := NudgeType.block, data := Option.none })
      true "t0" (handleBlockComplete exC1) =
      (processCheckout true "t0"
        { exC1 with currentNudge := Option.none, canProceedWithCheckout := true },
       false) :=
  ⟨(C1_block_complete_bypasses_on_next_request exC1).1,
   (C1_block_complete_bypasses_on_next_request exC1).2 _ true "t0" "u" rfl⟩

/-- Counterexample for C8 as stated: on a cart whose first line carries the
empty-string title, the gentle-nudge payload is the placeholder
`"this item"`, not the first line's title. -/
theorem C8_counterexample :
    (triggerGentleNudge { items := [mkLine "a" "" 10 2] }).currentNudge =
      Option.some { type := NudgeType.gentle,
                    data := Option.some { productTitle := Option.some "this item" } } ∧
    (mkLine "a" "" 10 2).title = "" ∧ ("this item" : String) ≠ "" := by
  refine ⟨rfl, rfl, by decide⟩

/-- Claim C8 (amended): building the gentle nudge is total and always
produces a `gentle` response whose payload `productTitle` is the first
line's title when the cart is non-empty and that title is a nonempty
string; when the cart is empty — or the first title is the empty string,
which is falsy in JS — the payload is the placeholder `"this item"`. -/
theorem C8_gentle_payload (s : PageState) :
    (∀ X rest, s.items = X :: rest → X.title ≠ "" →
      (triggerGentleNudge s).currentNudge =
        Option.some { type := NudgeType.gentle,
                      data := Option.some { productTitle := Option.some X.title } }) ∧
    (s.items = [] →
      (triggerGentleNudge s).currentNudge =
        Option.some { type := NudgeType.gentle,
                      data := Option.some { productTitle := Option.some "this item" } }) ∧
    (∀ X rest, s.items = X :: rest → X.title = "" →
      (triggerGentleNudge s).currentNudge =
        Option.some { type := NudgeType.gentle,
                      data := Option.some { productTitle := Option.some "this item" } }) := by
  refine ⟨?_, ?_, ?_⟩
  · intro X rest hi ht
    simp [triggerGentleNudge, strOr, hi, ht]
  · intro hi
    simp [triggerGentleNudge, strOr, hi]
  · intro X rest hi ht
    simp [triggerGentleNudge, strOr, hi, ht]

/-- Witness for C8's amended theorem: a nonempty first title is carried
through, and an empty cart yields the placeholder. -/
theorem C8_gentle_payload_witness :
    (mkLine "a" "A" 10 2).title ≠ "" ∧
    (triggerGentleNudge { items := [mkLine "a" "A" 10 2] }).currentNudge =
      Option.some { type := NudgeType.gentle,
                    data := Option.some { productTitle := Option.some "A" } } ∧
    (triggerGentleNudge { items := [] }).currentNudge =
      Option.some { type := NudgeType.gentle,
                    data := Option.some { productTitle := Option.some "this item" } } :=
  ⟨by decide,
   (C8_gentle_payload { items := [mkLine "a" "A" 10 2] }).1 _ _ rfl (by decide),
   (C8_gentle_payload { items := [] }).2.1 rfl⟩

/-- Claim C10: accepting an `alternative` nudge whose payload fails the JS
truthiness guard — `isAlreadyCheapest` not true and the alternative
product absent/empty or its price absent/zero — leaves every page-state
field unchanged except `currentNudge`, which is cleared: no removal, no
addition, no notification, same cart, same orders, same flags. -/
theorem C10_falsy_alternative_payload_only_dismisses
    (now : String) (s : PageState) (d : NudgeData)
    (hn : s.currentNudge =
      Option.some { type := NudgeType.alternative, data := Option.some d })
    (hcheap : truthyBool d.isAlreadyCheapest = false)
    (hfalsy : truthyStr d.alternativeProduct = false ∨
              truthyNum d.alternativePrice = false) :
    handleNudgeAccept NudgeType.alternative now s =
      { s with currentNudge := Option.none } := by
  cases hi : s.items with
  | nil => simp [handleNudgeAccept, hn, hi]
  | cons X rest =>
    rcases hfalsy with hf | hf
    · simp [handleNudgeAccept, hn, hi, hcheap, hf]
    · simp [handleNudgeAccept, hn, hi, hcheap, hf]

/-- Witness for C10 at a concrete cart and a payload with an absent
alternative product. -/
theorem C10_falsy_alternative_payload_only_dismisses_witness :
    handleNudgeAccept NudgeType.alternative "t0"
      { items := [mkLine "x" "X" 50 3], user := Option.some "u",
        currentNudge := Option.some
          { type := NudgeType.alternative,
            data := Option.some
              { currentProduct := Option.some "X", currentPrice := Option.some 50,
                alternativePrice := Option.some 30,
                isAlreadyCheapest := Option.some false } } } =
      { items := [mkLine "x" "X" 50 3], user := Option.some "u",
        currentNudge := Option.none } :=
  C10_falsy_alternative_payload_only_dismisses "t0" _ _ rfl (by decide)
    (Or.inl (by decide))

/-- Claim C5: accepting an `alternative` nudge with `isAlreadyCheapest`
true on a non-empty cart (whose line slugs are unique, as the Cart
collaborator guarantees) removes exactly the first line, adds nothing,
and reports the saved amount `originalPrice × originalQuantity`; nothing
else changes except the notification and the dismissed nudge. -/
theorem C5_already_cheapest_removes_first_line
    (now : String) (s : PageState) (d : NudgeData) (X : CartLine)
    (rest : List CartLine)
    (hi : s.items = X :: rest)
    (hn : s.currentNudge =
      Option.some { type := NudgeType.alternative, data := Option.some d })
    (hd : d.isAlreadyCheapest = Option.some true)
    (huniq : ∀ it ∈ rest, it.slug ≠ X.slug) :
    handleNudgeAccept NudgeType.alternative now s =
      { s with
        items := rest,
        notificationType := NotifType.success,
        notificationMessage :=
          NotifMessage.removedSaved (X.price * (X.quantity : Int)) X.title,
        showNotification := true,
        currentNudge := Option.none } := by
  simp [handleNudgeAccept, hn, hi, hd, truthyBool,
    removeItem_cons_self X rest huniq]

/-- Witness for C5 at a concrete one-line cart priced 50 with quantity 3. -/
theorem C5_already_cheapest_removes_first_line_witness :
    handleNudgeAccept NudgeType.alternative "t0"
      { items := [mkLine "x" "X" 50 3], user := Option.some "u",
        currentNudge := Option.some
          { type := NudgeType.alternative,
            data := Option.some
              { currentProduct := Option.some "X", currentPrice := Option.some 50,
                isAlreadyCheapest := Option.some true } } } =
      { items := [], user := Option.some "u",
        notificationType := NotifType.success,
        notificationMessage := NotifMessage.removedSaved 150 "X",
        showNotification := true,
        currentNudge := Option.none } := by
  have h := C5_already_cheapest_removes_first_line "t0"
    { items := [mkLine "x" "X" 50 3], user := Option.some "u",
      currentNudge := Option.some
        { type := NudgeType.alternative,
          data := Option.some
            { currentProduct := Option.some "X", currentPrice := Option.some 50,
              isAlreadyCheapest := Option.some true } } }
    { currentProduct := Option.some "X", currentPrice := Option.some 50,
      isAlreadyCheapest := Option.some true }
    (mkLine "x" "X" 50 3) [] rfl rfl rfl (by decide)
  simpa using h

/-- Claim C9: the accept handler for an `alternative` nudge always operates
on the first cart line: with an empty cart nothing but the nudge changes,
and on a non-empty cart each mutating branch removes the line carrying
`items[0].slug` — whatever product or slug the payload describes — the
swap branch then adding a single line carrying the original quantity. -/
theorem C9_accept_operates_on_first_line
    (now : String) (s : PageState) (d : NudgeData)
    (hn : s.currentNudge =
      Option.some { type := NudgeType.alternative, data := Option.some d }) :
    (s.items = [] →
      handleNudgeAccept NudgeType.alternative now s =
        { s with currentNudge := Option.none }) ∧
    (∀ X rest, s.items = X :: rest → truthyBool d.isAlreadyCheapest = true →
      (handleNudgeAccept NudgeType.alternative now s).items =
        removeItem X.slug s.items) ∧
    (∀ X rest, s.items = X :: rest → truthyBool d.isAlreadyCheapest = false →
      truthyStr d.alternativeProduct = true →
      truthyNum d.alternativePrice = true →
      ∃ newLine : CartLine,
        (handleNudgeAccept NudgeType.alternative now s).items =
          addItem newLine (removeItem X.slug s.items) ∧
        newLine.quantity = X.quantity) := by
  refine ⟨?_, ?_, ?_⟩
  · intro hi
    simp [handleNudgeAccept, hn, hi]
  · intro X rest hi hcheap
    simp [handleNudgeAccept, hn, hi, hcheap]
  · intro X rest hi hcheap hprod hprice
    refine ⟨{ slug := strOr d.alternativeSlug ("alternative-" ++ now),
              title := d.alternativeProduct.getD "",
              price := d.alternativePrice.getD 0,
              quantity := X.quantity,
              image := strOr d.alternativeImage "/images/products/placeholder.jpg",
              category := strOr d.alternativeCategory
                (strOr (Option.some X.category) "general") }, ?_, rfl⟩
    simp [handleNudgeAccept, hn, hi, hcheap, hprod, hprice]

/-- Witness for C9: on a two-line cart, accepting an already-cheapest
alternative nudge whose payload describes a product other than the first
line still removes the first line's slug. -/
theorem C9_accept_operates_on_first_line_witness :
    (handleNudgeAccept NudgeType.alternative "t0"
      { items := [mkLine "x" "X" 50 3, mkLine "b" "B" 7 1],
        user := Option.some "u",
        currentNudge := Option.some
          { type := NudgeType.alternative,
            data := Option.some
              { currentProduct := Option.some "B",
                isAlreadyCheapest := Option.some true } } }).items =
      removeItem "x" [mkLine "x" "X" 50 3, mkLine "b" "B" 7 1] := by
  have h := (C9_accept_operates_on_first_line "t0"
    { items := [mkLine "x" "X" 50 3, mkLine "b" "B" 7 1],
      user := Option.some "u",
      currentNudge := Option.some
        { type := NudgeType.alternative,
          data := Option.some
            { currentProduct := Option.some "B",
              isAlreadyCheapest := Option.some true } } }
    { currentProduct := Option.some "B",
      isAlreadyCheapest := Option.some true } rfl).2.1
    (mkLine "x" "X" 50 3) [mkLine "b" "B" 7 1] rfl (by decide)
  simpa using h

/-- A concrete state for C4's witness: one €50 line with quantity 3 and an
open alternative nudge offering Y at €30. -/
def exC4w : PageState :=
  { items := [mkLine "x" "X" 50 3], user := Option.some "u",
    currentNudge := Option.some
      { type := NudgeType.alternative,
        data := Option.some
          { currentProduct := Option.some "X", currentPrice := Option.some 50,
            alternativeProduct := Option.some "Y",
            alternativePrice := Option.some 30,
            alternativeSlug := Option.some "y",
            isAlreadyCheapest := Option.some false } } }

/-- Counterexample for C4 as stated: a strictly cheaper alternative priced
0 (0 < 50, `isAlreadyCheapest = false`) is *not* swapped in — the price 0
is falsy in JS, so the guard fails, the cart keeps the original line, no
line for the alternative appears, and no notification is shown. -/
theorem C4_counterexample :
    handleNudgeAccept NudgeType.alternative "t0"
      { items := [mkLine "x" "X" 50 3], user := Option.some "u",
        currentNudge := Option.some
          { type := NudgeType.alternative,
            data := Option.some
              { currentProduct := Option.some "X", currentPrice := Option.some 50,
                alternativeProduct := Option.some "Y",
                alternativePrice := Option.some 0,
                alternativeSlug := Option.some "y",
                isAlreadyCheapest := Option.some false } } } =
      { items := [mkLine "x" "X" 50 3], user := Option.some "u",
        currentNudge := Option.none } ∧
    (0 : Int) < 50 ∧
    ([mkLine "x" "X" 50 3].countP (fun it => it.slug == "y") = 0 ∧
     [mkLine "x" "X" 50 3].countP (fun it => it.slug == "x") = 1) := by
  refine ⟨rfl, by decide, by decide, by decide⟩

/-- Claim C4 (amended): accepting an `alternative` nudge carrying a
strictly cheaper alternative Y — with a nonempty product name, a nonzero
price, and a nonempty slug distinct from the first line's slug and from
every other line's slug — on a cart whose first line is X with quantity q
yields a cart with exactly one line for Y, carrying quantity q and Y's
name and price, no line with X's slug, and a success notification
reporting savings `currentPrice − alternativePrice`. -/
theorem C4_accept_cheaper_swaps_line
    (now : String) (s : PageState) (d : NudgeData) (X : CartLine)
    (rest : List CartLine) (pname : String) (ap cp : Int) (yslug : String)
    (hi : s.items = X :: rest)
    (hn : s.currentNudge =
      Option.some { type := NudgeType.alternative, data := Option.some d })
    (hd : d.isAlreadyCheapest = Option.some false)
    (hp : d.alternativeProduct = Option.some pname) (hpne : pname ≠ "")
    (hap : d.alternativePrice = Option.some ap) (hapne : ap ≠ 0)
    (hcp : d.currentPrice = Option.some cp) (hcheaper : ap < cp)
    (hslug : d.alternativeSlug = Option.some yslug) (hyne : yslug ≠ "")
    (hyx : yslug ≠ X.slug)
    (hfresh : ∀ it ∈ rest, it.slug ≠ yslug) :
    ((handleNudgeAccept NudgeType.alternative now s).items.countP
        (fun it => it.slug == yslug) = 1 ∧
     (handleNudgeAccept NudgeType.alternative now s).items.countP
        (fun it => it.slug == X.slug) = 0) ∧
    (∀ it ∈ (handleNudgeAccept NudgeType.alternative now s).items,
      it.slug = yslug →
        it.title = pname ∧ it.price = ap ∧ it.quantity = X.quantity) ∧
    (handleNudgeAccept NudgeType.alternative now s).notificationMessage =
      NotifMessage.switchedSaved pname (Option.some (cp - ap)) ∧
    (handleNudgeAccept NudgeType.alternative now s).notificationType =
      NotifType.success ∧
    (handleNudgeAccept NudgeType.alternative now s).showNotification = true := by
  have hbool1 : truthyBool d.isAlreadyCheapest = false := by
    simp [truthyBool, hd]
  have hresult : handleNudgeAccept NudgeType.alternative now s =
      { s with
        items := addItem
          { slug := yslug, title := pname, price := ap, quantity := X.quantity,
            image := strOr d.alternativeImage "/images/products/placeholder.jpg",
            category := strOr d.alternativeCategory
              (strOr (Option.some X.category) "general") }
          (removeItem X.slug (X :: rest)),
        notificationType := NotifType.success,
        notificationMessage := NotifMessage.switchedSaved pname (Option.some (cp - ap)),
        showNotification := true,
        currentNudge := Option.none } := by
    simp [handleNudgeAccept, hn, hi, hbool1, truthyStr, truthyNum, hp, hap,
      hcp, hpne, hapne, hslug, strOr, hyne]
  have hfresh2 : ∀ it ∈ removeItem X.slug (X :: rest), it.slug ≠ yslug := by
    intro it hit
    rcases mem_removeItem hit with ⟨hmem, _⟩
    rcases List.mem_cons.mp hmem with h | h
    · rw [h]; exact fun hEq => hyx hEq.symm
    · exact hfresh it h
  have hitems :
      (handleNudgeAccept NudgeType.alternative now s).items =
        removeItem X.slug (X :: rest) ++
          [{ slug := yslug, title := pname, price := ap,
             quantity := X.quantity,
             image := strOr d.alternativeImage "/images/products/placeholder.jpg",
             category := strOr d.alternativeCategory
               (strOr (Option.some X.category) "general") }] := by
    rw [hresult]
    exact addItem_of_fresh _ _ (fun it hit => hfresh2 it hit)
  refine ⟨⟨?_, ?_⟩, ?_, ?_, ?_, ?_⟩
  · rw [hitems, List.countP_append]
    have h0 : (removeItem X.slug (X :: rest)).countP
        (fun it => it.slug == yslug) = 0 := by
      rw [List.countP_eq_zero]
      intro it hit
      simpa using hfresh2 it hit
    rw [h0]
    simp
  · rw [hitems, List.countP_append]
    have h0 : (removeItem X.slug (X :: rest)).countP
        (fun it => it.slug == X.slug) = 0 := by
      rw [List.countP_eq_zero]
      intro it hit
      simpa using (mem_removeItem hit).2
    rw [h0]
    simp [hyx]
  · rw [hitems]
    intro it hit hslugeq
    rcases List.mem_append.mp hit with h | h
    · exact absurd hslugeq (hfresh2 it h)
    · rcases List.mem_singleton.mp h with rfl
      exact ⟨rfl, rfl, rfl⟩
  · rw [hresult]
  · rw [hresult]
  · rw [hresult]


/-- Witness for C4's amended theorem: the €50 line with quantity 3 is
replaced by one €30 line for Y with quantity 3, savings 20. -/
theorem C4_accept_cheaper_swaps_line_witness :
    (((handleNudgeAccept NudgeType.alternative "t1" exC4w).items.countP
        (fun it => it.slug == "y") = 1 ∧
      (handleNudgeAccept NudgeType.alternative "t1" exC4w).items.countP
        (fun it => it.slug == "x") = 0) ∧
     (∀ it ∈ (handleNudgeAccept NudgeType.alternative "t1" exC4w).items,
        it.slug = "y" → it.title = "Y" ∧ it.price = 30 ∧ it.quantity = 3) ∧
     (handleNudgeAccept NudgeType.alternative "t1" exC4w).notificationMessage =
       NotifMessage.switchedSaved "Y" (Option.some 20) ∧
     (handleNudgeAccept NudgeType.alternative "t1" exC4w).notificationType =
       NotifType.success ∧
     (handleNudgeAccept NudgeType.alternative "t1" exC4w).showNotification = true) := by
  have h := C4_accept_cheaper_swaps_line "t1" exC4w
    { currentProduct := Option.some "X", currentPrice := Option.some 50,
      alternativeProduct := Option.some "Y", alternativePrice := Option.some 30,
      alternativeSlug := Option.some "y", isAlreadyCheapest := Option.some false }
    (mkLine "x" "X" 50 3) [] "Y" 30 50 "y"
    rfl rfl rfl rfl (by decide) rfl (by decide) rfl (by decide) rfl (by decide)
    (by decide) (by decide)
  simpa using h
